import Mathlib

/-!
Shallow embedding of the A1.art façade service (src/app.py) and proofs
about its task-orchestration, template-resolution and status-normalization
behaviour.

Modelling conventions:
* Remote HTTP interactions are modelled by passing each endpoint's parsed
  JSON response (or a transport-error message) as an explicit stub input;
  the generate endpoint's stub is a function of the posted payload so the
  payload actually submitted can be observed.
* JSON dicts are represented by structures over exactly the keys the code
  reads; a key is modelled as present exactly when its value is non-null,
  so `Option.getD` models `dict.get(k, default)` and an all-`none` record
  models the empty (falsy) dict.
* Raised exceptions are modelled by `PyExc`; every
  `try: ... except Exception as e: raise HTTPException(500, str(e))`
  block is an explicit wrapper on `Except PyExc`.
-/

namespace A1

/-- A raised exception: either a fastapi `HTTPException` (status code and
detail) or any other exception carrying its message. -/
inductive PyExc where
  | http (status_code : Nat) (detail : String)
  | other (msg : String)
deriving DecidableEq

/-- Models `str(e)`: starlette formats an `HTTPException` as
`f"{status_code}: {detail}"`; for other exceptions we keep the message. -/
def strPyExc : PyExc → String
  | .http c d => toString c ++ ": " ++ d
  | .other m => m

/-- Models a whole function body inside
`try: ... except Exception as e: raise HTTPException(status_code=500, detail=str(e))` —
note this also swallows `HTTPException`s raised inside the `try`. -/
def wrap500 {α : Type} : Except PyExc α → Except PyExc α
  | .ok a => .ok a
  | .error e => .error (.http 500 (strPyExc e))

/-- Models `except HTTPException: raise` followed by
`except Exception as e: raise HTTPException(status_code=500, detail=str(e))`
(the handler pair of `generate_with_template`, src/app.py:446-450). -/
def reraiseHTTPElse500 {α : Type} : Except PyExc α → Except PyExc α
  | .ok a => .ok a
  | .error (.http c d) => .error (.http c d)
  | .error (.other m) => .error (.http 500 m)

/-- Python `a or b` where `a` is an optional string (`None` and `""` are
falsy). -/
def pyOr : Option String → String → String
  | some s, b => if s = "" then b else s
  | none, b => b

/-! ## Template table (src/app.py:50-70) -/

/-- One loaded template record, over the keys the code reads
(`app_id`, `version_id`, `cnet_form_id` are accessed with `[]`, i.e.
required; `name` and `template_image` with `.get`, i.e. optional). -/
structure Template where
  name : Option String
  app_id : String
  version_id : String
  cnet_form_id : String
  template_image : Option String
deriving DecidableEq

/-- Python `dict.get` on the template table, keyed by `template_id`
(a dict has unique keys). -/
def dictGet : List (Int × Template) → Int → Option Template
  | [], _ => none
  | (k, v) :: rest, key => if k = key then some v else dictGet rest key

/-- Models `get_template_config` (src/app.py:64): `TEMPLATES.get(template_id)`;
a stored template dict is never falsy, so `if not template` fires only on
`None`, which is logged and returned as `None`. -/
def get_template_config (TEMPLATES : List (Int × Template)) (template_id : Int) :
    Option Template :=
  let template := dictGet TEMPLATES template_id
  match template with
  | none => none
  | some t => some t

/-! ## TaskState enum (src/app.py:72-75) -/

/-- Value `TaskState.COMPLETED.value`. -/
def TaskState.COMPLETED : Int := 10

/-- Value `TaskState.FAILED.value`. -/
def TaskState.FAILED : Int := 20

/-- Value `TaskState.PROCESSING.value`. -/
def TaskState.PROCESSING : Int := 30

/-- The list `[s.value for s in TaskState]`. -/
def TaskState.values : List Int :=
  [TaskState.COMPLETED, TaskState.FAILED, TaskState.PROCESSING]

/-- Models `TaskState(v).name`, meaningful for `v` among the enum values (every
call site guards it with a membership test). -/
def TaskState.nameOf (v : Int) : String :=
  if v = TaskState.COMPLETED then "COMPLETED"
  else if v = TaskState.FAILED then "FAILED"
  else "PROCESSING"

/-- Models `TaskState(state).name if state in [s.value for s in TaskState] else "UNKNOWN"`
(src/app.py:551 and :565); `state` may be missing (`None`), which is not
among the values. -/
def state_text_of : Option Int → String
  | some v => if v ∈ TaskState.values then TaskState.nameOf v else "UNKNOWN"
  | none => "UNKNOWN"

/-! ## Upload endpoint (src/app.py:169-198) -/

/-- The nested `data` object of a successful upload response; the code
reads `upload_result["imageUrl"]` and `upload_result["path"]`. -/
structure UploadData where
  imageUrl : String
  path : String
deriving DecidableEq

/-- Parsed JSON body of the upload endpoint, over the keys the code reads. -/
structure UploadResponse where
  code : Option Int
  msg_cn : Option String
  data : Option UploadData
deriving DecidableEq

/-- Body of `upload_image` inside its `try` (src/app.py:178-195): a
transport or JSON-decoding failure is a non-HTTP exception; a provider
`code` other than `0` raises `HTTPException(400, msg_cn or default)`;
success returns the nested `data` object (which `.get` may make `None`). -/
def upload_image_try (resp : Except String UploadResponse) :
    Except PyExc (Option UploadData) :=
  match resp with
  | .error e => .error (.other e)
  | .ok result =>
    if result.code = some 0 then
      .ok result.data
    else
      .error (.http 400 (result.msg_cn.getD "未知錯誤"))

/-- Models `upload_image` (src/app.py:169): the enclosing
`except Exception as e: raise HTTPException(500, str(e))` catches every
failure, including the function's own `HTTPException(400, ...)`, and
re-raises it as a 500 whose detail is `str(e)`. -/
def upload_image (resp : Except String UploadResponse) :
    Except PyExc (Option UploadData) :=
  wrap500 (upload_image_try resp)

/-! ## Local file save (src/app.py:200-208) -/

/-- Models `save_uploaded_file` (src/app.py:200): returns the destination path on success; a write
failure raises `HTTPException(500, "檔案保存失敗: " + str(e))`. -/
def save_uploaded_file (save : Except String Unit) (destination : String) :
    Except PyExc String :=
  match save with
  | .ok _ => .ok destination
  | .error e => .error (.http 500 ("檔案保存失敗: " ++ e))

/-! ## Generate endpoint (src/app.py:134-167) -/

/-- One entry of the `cnet` list (src/app.py:283-287). -/
structure CnetItem where
  id : String
  imageUrl : String
  path : String
deriving DecidableEq

/-- The `"size"` sub-object of the generation payload. -/
structure SizeSpec where
  sizeId : String
deriving DecidableEq

/-- The JSON payload posted by `generate_image` (src/app.py:138-146). -/
structure GeneratePayload where
  cnet : List CnetItem
  description : List String
  styleId : String
  size : SizeSpec
  appId : String
  versionId : String
  generateNum : Int
deriving DecidableEq

/-- The payload `generate_image` builds from its arguments. -/
def generate_payload (cnet_data : List CnetItem) (description_data : List String)
    (style_id size_id app_id version_id : String) (generate_num : Int) :
    GeneratePayload :=
  { cnet := cnet_data, description := description_data, styleId := style_id,
    size := { sizeId := size_id }, appId := app_id, versionId := version_id,
    generateNum := generate_num }

/-- The nested `data` object of a generation response (`data.get("taskId")`). -/
structure GenData where
  taskId : Option String
deriving DecidableEq

/-- Parsed JSON body of the generate endpoint, over the keys the code reads. -/
structure GenerationResponse where
  code : Option Int
  msg_cn : Option String
  msg : Option String
  data : Option GenData
deriving DecidableEq

/-- Python truthiness of the (modelled) response dict: the empty dict is
falsy, any dict with one of the read keys present is truthy. -/
def GenerationResponse.isTruthy (r : GenerationResponse) : Bool :=
  r.code.isSome || r.msg_cn.isSome || r.msg.isSome || r.data.isSome

/-- A stub of the generate endpoint: given the posted payload, either a
transport/JSON-decoding failure or the HTTP status with the parsed body. -/
abbrev GenerateStub := GeneratePayload → Except String (Nat × GenerationResponse)

/-- Body of `generate_image` inside its `try` (src/app.py:156-164): a
non-200 HTTP status raises `HTTPException(status, msg_cn or default)`,
otherwise the parsed body is returned unchecked. -/
def generate_image_try (net : GenerateStub) (payload : GeneratePayload) :
    Except PyExc GenerationResponse :=
  match net payload with
  | .error e => .error (.other e)
  | .ok (status, result) =>
    if status ≠ 200 then
      .error (.http status (result.msg_cn.getD "未知錯誤"))
    else
      .ok result

/-- Models `generate_image` (src/app.py:134): as with `upload_image`, the
enclosing `except Exception` converts every failure — including the
function's own `HTTPException` — into a 500. -/
def generate_image (net : GenerateStub) (payload : GeneratePayload) :
    Except PyExc GenerationResponse :=
  wrap500 (generate_image_try net payload)

/-! ## Task status endpoint client (src/app.py:210-233) -/

/-- The provider's raw task record, over the keys the code reads. -/
structure TaskRecord where
  id : Option String
  state : Option Int
  images : Option (List String)
  startDate : Option String
  finishDate : Option String
  createDate : Option String
deriving DecidableEq

/-- Parsed JSON body of the task-status endpoint. -/
structure TaskResponse where
  code : Option Int
  msg_cn : Option String
  data : Option TaskRecord
deriving DecidableEq

/-- Body of `check_task_result` inside its `try` (src/app.py:221-230). -/
def check_task_result_try (resp : Except String TaskResponse) :
    Except PyExc (Option TaskRecord) :=
  match resp with
  | .error e => .error (.other e)
  | .ok result =>
    if result.code = some 0 then
      .ok result.data
    else
      .error (.http 400 (result.msg_cn.getD "未知錯誤"))

/-- Models `check_task_result` (src/app.py:210): its own `except Exception`
converts every failure, including its `HTTPException(400, ...)`, into a
500. -/
def check_task_result (resp : Except String TaskResponse) :
    Except PyExc (Option TaskRecord) :=
  wrap500 (check_task_result_try resp)

/-- The outbound request `check_task_result` builds (src/app.py:212-219). -/
structure OutboundRequest where
  url : String
  headers : List (String × String)
deriving DecidableEq

/-- The URL `f"https://a1.art/open-api/v1/a1/tasks/{task_id}"`. -/
def task_url (task_id : String) : String :=
  "https://a1.art/open-api/v1/a1/tasks/" ++ task_id

/-- Headers attached by `check_task_result`: the `section: cn`
region-selector header is added exactly when `is_china`. -/
def check_task_headers (apiKey : String) (is_china : Bool) :
    List (String × String) :=
  let headers := [("apiKey", apiKey), ("Content-Type", "application/json")]
  if is_china then headers ++ [("section", "cn")] else headers

/-- The full request issued by `check_task_result(task_id, is_china)`. -/
def check_task_request (apiKey task_id : String) (is_china : Bool) :
    OutboundRequest :=
  { url := task_url task_id, headers := check_task_headers apiKey is_china }

/-- The request issued by `get_process_status` (src/app.py:537), which
calls `check_task_result(task_id, is_china=True)` unconditionally. -/
def get_process_status_request (apiKey task_id : String) : OutboundRequest :=
  check_task_request apiKey task_id true

/-! ## Status route (src/app.py:505-577) -/

/-- The JSON body returned by `/status/{task_id}` (both branches build the
same eight fields, src/app.py:548-557 and :562-571). -/
structure StatusResponse where
  status : String
  id : Option String
  state_text : String
  state : Option Int
  startDate : Option String
  finishDate : Option String
  createDate : Option String
  images : List String
deriving DecidableEq

/-- Body of `get_process_status` inside its `try` (src/app.py:536-573):
fetch the raw record (a `None` record makes `task_result.get(...)` raise),
then branch on `state == TaskState.COMPLETED.value`; in BOTH branches the
`images` field is `task_result.get("images", [])`, the raw provider list. -/
def get_process_status_try (resp : Except String TaskResponse) :
    Except PyExc StatusResponse :=
  match check_task_result resp with
  | .error e => .error e
  | .ok none => .error (.other "NoneType object has no attribute get")
  | .ok (some task_result) =>
    let state := task_result.state
    if state = some TaskState.COMPLETED then
      let images := task_result.images.getD []
      .ok { status := "success", id := task_result.id,
            state_text := state_text_of state, state := state,
            startDate := task_result.startDate,
            finishDate := task_result.finishDate,
            createDate := task_result.createDate, images := images }
    else
      .ok { status := "success", id := task_result.id,
            state_text := state_text_of state, state := state,
            startDate := task_result.startDate,
            finishDate := task_result.finishDate,
            createDate := task_result.createDate,
            images := task_result.images.getD [] }

/-- Route `/status/{task_id}` (src/app.py:505): the route-level `except`
re-wraps any raised exception into a 500. -/
def get_process_status (resp : Except String TaskResponse) :
    Except PyExc StatusResponse :=
  wrap500 (get_process_status_try resp)

/-! ## Filename handling (src/app.py:272) -/

/-- Index of the last occurrence of `c` in `cs`. -/
def rlastIdx (c : Char) : List Char → Option Nat
  | [] => none
  | x :: xs =>
    match rlastIdx c xs with
    | some i => some (i + 1)
    | none => if x = c then some 0 else none

/-- Models `os.path.splitext(p)[1]`: the extension including its dot, or `""`;
the dot must lie after the last separator, and a run of dots at the start
of the basename does not begin an extension. -/
def splitext_ext (p : String) : String :=
  let cs := p.toList
  let sepIndex : Int :=
    match rlastIdx '/' cs with
    | some i => (i : Int)
    | none => -1
  match rlastIdx '.' cs with
  | some dotIndex =>
    if sepIndex < (dotIndex : Int) then
      let between := (cs.take dotIndex).drop (sepIndex + 1).toNat
      if between.any (fun ch => ch ≠ '.') then String.mk (cs.drop dotIndex)
      else ""
    else ""
  | none => ""

/-! ## Create orchestration (src/app.py:241-332 and :340-450)

`create_process` and `generate_with_template` share, line for line, the
same pipeline after parameter resolution (save the file, upload it, build
the one-item `cnet` list, post the generation payload, check the response
envelope); it is factored out here once.  A `CreateTrace` records which
externally visible steps ran and the exact payload posted, if any. -/

/-- Stubbed collaborators of one create call: the local-save outcome, the
upload endpoint's parsed response (or transport failure), and the generate
endpoint as a function of the posted payload. -/
structure CreateStubs where
  save : Except String Unit
  upload : Except String UploadResponse
  generate : GenerateStub

/-- Externally visible steps a create call performed: whether the local
file was persisted, whether the upload endpoint was called, and the
generation payload posted (`none` when generation was never submitted). -/
structure CreateTrace where
  file_saved : Bool
  upload_called : Bool
  generate_payload : Option GeneratePayload
deriving DecidableEq

/-- The response-envelope checks both create endpoints run on the
generation result (src/app.py:303-319): falsy body, non-zero embedded
`code` (message `msg_cn or msg or default`), falsy `data`, falsy `taskId`;
otherwise the task id. -/
def check_generation_envelope (generation_result : GenerationResponse) :
    Except PyExc String :=
  if ¬ generation_result.isTruthy then
    .error (.http 400 "API 回應為空")
  else if generation_result.code ≠ some 0 then
    .error (.http 400 (pyOr generation_result.msg_cn
      (pyOr generation_result.msg "未知錯誤")))
  else
    match generation_result.data with
    | none => .error (.http 400 "API 回應格式錯誤：缺少 data 字段")
    | some data =>
      match data.taskId with
      | none =>
        -- an all-`none` `data` record models the empty `data` dict,
        -- which is falsy and takes the `if not data` branch
        .error (.http 400 "API 回應格式錯誤：缺少 data 字段")
      | some task_id =>
        if task_id = "" then .error (.http 400 "未獲取到任務ID")
        else .ok task_id

/-- The shared create pipeline (src/app.py:269-319 and :383-433): build
the timestamped path, save the file, upload it, build `cnet` from the
single upload result, post the generation payload, check the envelope.
On success it yields the task id, upload data and local path (the pieces
the two response bodies share). -/
def create_pipeline (stubs : CreateStubs) (filename timestamp : String)
    (app_id version_id cnet_form_id : String) (generate_num : Int) :
    Except PyExc (String × UploadData × String) × CreateTrace :=
  let file_extension := splitext_ext filename
  let new_filename := timestamp ++ file_extension
  let file_path := "input/" ++ new_filename
  match save_uploaded_file stubs.save file_path with
  | .error e => (.error e, ⟨false, false, none⟩)
  | .ok saved_path =>
    match upload_image stubs.upload with
    | .error e => (.error e, ⟨true, true, none⟩)
    | .ok none =>
      -- `upload_result["imageUrl"]` on `None` raises a TypeError
      (.error (.other "NoneType object is not subscriptable"),
       ⟨true, true, none⟩)
    | .ok (some upload_result) =>
      let cnet : List CnetItem :=
        [{ id := cnet_form_id, imageUrl := upload_result.imageUrl,
           path := upload_result.path }]
      let payload := generate_payload cnet [] "" "" app_id version_id generate_num
      let outcome :=
        match generate_image stubs.generate payload with
        | .error e => .error e
        | .ok generation_result =>
          (check_generation_envelope generation_result).map
            (fun task_id => (task_id, upload_result, saved_path))
      (outcome, ⟨true, true, some payload⟩)

/-- Success body of `/create` (src/app.py:323-328). -/
structure CreateResult where
  status : String
  task_id : String
  upload_result : UploadData
  local_path : String
deriving DecidableEq

/-- Route `/create` (src/app.py:241): runs the pipeline with the caller-supplied
ids and count; its whole body sits inside
`try: ... except Exception as e: raise HTTPException(500, str(e))`, which
also swallows the 400-class `HTTPException`s raised within. -/
def create_process (stubs : CreateStubs) (filename timestamp : String)
    (app_id version_id cnet_form_id : String) (generate_num : Int) :
    Except PyExc CreateResult × CreateTrace :=
  match create_pipeline stubs filename timestamp app_id version_id cnet_form_id
      generate_num with
  | (r, trace) =>
    (wrap500 (r.map (fun x =>
      { status := "success", task_id := x.1, upload_result := x.2.1,
        local_path := x.2.2 })), trace)

/-- Success body of `/generate` (src/app.py:437-444). -/
structure TemplateCreateResult where
  status : String
  task_id : String
  template_id : Int
  template_name : String
  upload_result : UploadData
  local_path : String
deriving DecidableEq

/-- The default display name `f"模板 {template_id}"`. -/
def default_template_name (template_id : Int) : String :=
  "模板 " ++ toString template_id

/-- Route `/generate` (src/app.py:340): resolves the template first — a miss
raises `HTTPException(400, ...)` before any file save or remote call —
then runs the pipeline with the template's ids and a fixed
`generate_num = 1` (src/app.py:403-412).  Its handlers re-raise
`HTTPException`s unchanged and wrap only other exceptions into 500s. -/
def generate_with_template (TEMPLATES : List (Int × Template))
    (stubs : CreateStubs) (filename timestamp : String) (template_id : Int) :
    Except PyExc TemplateCreateResult × CreateTrace :=
  match get_template_config TEMPLATES template_id with
  | none =>
    (reraiseHTTPElse500 (.error (.http 400
      ("模板 ID " ++ toString template_id ++ " 不存在"))),
     ⟨false, false, none⟩)
  | some template =>
    match create_pipeline stubs filename timestamp template.app_id
        template.version_id template.cnet_form_id 1 with
    | (r, trace) =>
      (reraiseHTTPElse500 (r.map (fun x =>
        { status := "success", task_id := x.1, template_id := template_id,
          template_name := template.name.getD (default_template_name template_id),
          upload_result := x.2.1, local_path := x.2.2 })), trace)

/-! ## Template listing (src/app.py:458-497) -/

/-- One item of the `/templates` response (src/app.py:480-487). -/
structure TemplateListItem where
  template_id : Int
  name : String
  app_id : String
  version_id : String
  cnet_form_id : String
  template_image : Option String
deriving DecidableEq

/-- Body of the `/templates` response (src/app.py:490-494). -/
structure TemplatesResult where
  status : String
  count : Nat
  templates : List TemplateListItem
deriving DecidableEq

/-- The JSON item built for one `(template_id, config)` pair. -/
def template_list_item (tc : Int × Template) : TemplateListItem :=
  { template_id := tc.1,
    name := tc.2.name.getD (default_template_name tc.1),
    app_id := tc.2.app_id, version_id := tc.2.version_id,
    cnet_form_id := tc.2.cnet_form_id, template_image := tc.2.template_image }

/-- Models `sorted(TEMPLATES.items())`: dict items sorted by key (dict keys are
unique, so the tuple comparison never reaches the second component). -/
def sorted_items (tbl : List (Int × Template)) : List (Int × Template) :=
  List.insertionSort (fun a b => a.1 ≤ b.1) tbl

/-- Route `/templates` (src/app.py:458). -/
def get_templates (TEMPLATES : List (Int × Template)) : TemplatesResult :=
  let templates_list := (sorted_items TEMPLATES).map template_list_item
  { status := "success", count := templates_list.length,
    templates := templates_list }

/-- Totality of the key ordering used by `sorted_items`. -/
instance : IsTotal (Int × Template) (fun a b => a.1 ≤ b.1) :=
  ⟨fun a b => le_total a.1 b.1⟩

/-- Transitivity of the key ordering used by `sorted_items`. -/
instance : IsTrans (Int × Template) (fun a b => a.1 ≤ b.1) :=
  ⟨fun _ _ _ h1 h2 => le_trans h1 h2⟩

/-! ## Concrete stub fixtures used by the closed checks -/

/-- A successful upload response. -/
def uploadRespOK : UploadResponse :=
  { code := some 0, msg_cn := none,
    data := some { imageUrl := "https://x/u1", path := "p1" } }

/-- A successful generation submission returning task id `T1`. -/
def genRespOK : GenerationResponse :=
  { code := some 0, msg_cn := none, msg := none,
    data := some { taskId := some "T1" } }

/-- The rejection envelope of the spec scenario:
`submitGeneration` returns code 1 with localized message `額度不足`. -/
def genRespRejected : GenerationResponse :=
  { code := some 1, msg_cn := some "額度不足", msg := none, data := none }

/-- Stubs where every remote step succeeds. -/
def stubsOK : CreateStubs :=
  { save := .ok (), upload := .ok uploadRespOK,
    generate := fun _ => .ok (200, genRespOK) }

/-- Stubs where the generation submission is rejected by the provider. -/
def stubsRejected : CreateStubs :=
  { save := .ok (), upload := .ok uploadRespOK,
    generate := fun _ => .ok (200, genRespRejected) }

/-- Stubs where the upload is rejected by the provider (code 1). -/
def stubsUploadRejected : CreateStubs :=
  { save := .ok (),
    upload := .ok { code := some 1, msg_cn := some "無效檔案", data := none },
    generate := fun _ => .ok (200, genRespOK) }

/-- The payload the pipeline posts under `stubsOK` with ids a/v/c and
count 1. -/
def payloadOK : GeneratePayload :=
  generate_payload
    [{ id := "c", imageUrl := "https://x/u1", path := "p1" }] [] "" "" "a" "v" 1

/-- A concrete template record. -/
def tmplAnime : Template :=
  { name := some "動漫風", app_id := "a", version_id := "v",
    cnet_form_id := "c", template_image := none }

/-- A one-entry template table holding `tmplAnime` under id 1. -/
def tbl1 : List (Int × Template) := [(1, tmplAnime)]

/-- A raw provider record in the failed state that nonetheless lists an
image URL. -/
def recFailedWithImages : TaskRecord :=
  { id := some "T1", state := some 20, images := some ["https://x/img1"],
    startDate := some "s", finishDate := some "f", createDate := some "c" }

/-- A raw provider record in the completed state with two image URLs. -/
def recCompletedTwo : TaskRecord :=
  { id := some "T1", state := some 10,
    images := some ["https://x/a.png", "https://x/b.png"],
    startDate := some "s", finishDate := some "f", createDate := some "c" }

/-- A raw provider record with the unrecognized state code 99. -/
def recUnknownState : TaskRecord :=
  { id := some "T1", state := some 99, images := some [],
    startDate := some "s", finishDate := some "f", createDate := some "c" }

/-- The success body `/create` produces under `stubsOK`. -/
def resOK : CreateResult :=
  { status := "success", task_id := "T1",
    upload_result := { imageUrl := "https://x/u1", path := "p1" },
    local_path := "input/ts.jpg" }

/-- A status stub that reports every task as completed with two images. -/
def providerCompleted : String → Except String TaskResponse :=
  fun _ => .ok { code := some 0, msg_cn := none, data := some recCompletedTwo }

/-! ## Helper lemmas -/

/-- Every failure of `upload_image` is an `HTTPException` with status 500,
because its own handler re-wraps everything. -/
theorem upload_image_error_is_http (r : Except String UploadResponse)
    (e : PyExc) (h : upload_image r = .error e) : ∃ m, e = .http 500 m := by
  unfold upload_image at h
  cases hu : upload_image_try r with
  | ok a => rw [hu] at h; exact absurd h (by simp [wrap500])
  | error e0 =>
    rw [hu] at h
    simp only [wrap500] at h
    exact ⟨strPyExc e0, (Except.error.injEq _ _).mp h |>.symm⟩

/-- If the local save succeeds and `upload_image` fails, the pipeline
stops at the upload: it returns the upload error and never posts a
generation payload. -/
theorem create_pipeline_upload_error (stubs : CreateStubs)
    (filename timestamp app_id version_id cnet_form_id : String)
    (generate_num : Int) (e : PyExc)
    (hsave : stubs.save = .ok ())
    (hup : upload_image stubs.upload = .error e) :
    create_pipeline stubs filename timestamp app_id version_id cnet_form_id
      generate_num = (.error e, ⟨true, true, none⟩) := by
  simp only [create_pipeline, hsave, save_uploaded_file, hup]

/-- Any payload the pipeline posts has an empty description, empty style
id, empty size id, and the ids and count the pipeline was given. -/
theorem create_pipeline_payload (stubs : CreateStubs)
    (filename timestamp app_id version_id cnet_form_id : String)
    (generate_num : Int) (p : GeneratePayload)
    (h : (create_pipeline stubs filename timestamp app_id version_id
      cnet_form_id generate_num).2.generate_payload = some p) :
    p.description = [] ∧ p.styleId = "" ∧ p.size = { sizeId := "" } ∧
      p.appId = app_id ∧ p.versionId = version_id ∧
      p.generateNum = generate_num := by
  simp only [create_pipeline] at h
  split at h
  · simp at h
  · split at h
    · simp at h
    · simp at h
    · dsimp only at h
      injection h with h
      subst h
      exact ⟨rfl, rfl, rfl, rfl, rfl, rfl⟩

/-- When the template resolves, the trace of `/generate` is exactly the
trace of the pipeline run with the template parameters and count 1. -/
theorem generate_with_template_trace (TEMPLATES : List (Int × Template))
    (stubs : CreateStubs) (filename timestamp : String) (template_id : Int)
    (template : Template)
    (ht : get_template_config TEMPLATES template_id = some template) :
    (generate_with_template TEMPLATES stubs filename timestamp template_id).2
      = (create_pipeline stubs filename timestamp template.app_id
          template.version_id template.cnet_form_id 1).2 := by
  unfold generate_with_template
  rw [ht]

/-- Unfolding `get_template_config` to the underlying dict lookup. -/
theorem get_template_config_eq (tbl : List (Int × Template)) (k : Int) :
    get_template_config tbl k = dictGet tbl k := by
  unfold get_template_config
  cases dictGet tbl k <;> rfl

/-- Dict lookup finds the stored value of a present key (keys unique). -/
theorem dictGet_of_mem (tbl : List (Int × Template)) (k : Int) (v : Template)
    (hnodup : (tbl.map Prod.fst).Nodup) (hmem : (k, v) ∈ tbl) :
    dictGet tbl k = some v := by
  induction tbl with
  | nil => cases hmem
  | cons hd tl ih =>
    obtain ⟨k0, v0⟩ := hd
    rw [List.map_cons, List.nodup_cons] at hnodup
    rcases List.mem_cons.mp hmem with heq | hmem2
    · cases heq
      simp [dictGet]
    · have hk : k0 ≠ k := by
        intro hk0
        apply hnodup.1
        rw [hk0]
        exact List.mem_map.mpr ⟨(k, v), hmem2, rfl⟩
      simpa [dictGet, hk] using ih hnodup.2 hmem2

/-- Dict lookup misses an absent key. -/
theorem dictGet_of_not_mem (tbl : List (Int × Template)) (k : Int)
    (h : k ∉ tbl.map Prod.fst) : dictGet tbl k = none := by
  induction tbl with
  | nil => rfl
  | cons hd tl ih =>
    obtain ⟨k0, v0⟩ := hd
    have hk : k0 ≠ k := by
      intro hk0
      exact h (by simp [hk0])
    simpa [dictGet, hk] using ih (fun hm => h (by simp [hm]))

/-- Evaluating `check_task_result` on a zero-code envelope. -/
theorem check_task_result_ok (mcn : Option String) (rec : TaskRecord) :
    check_task_result (.ok { code := some 0, msg_cn := mcn, data := some rec })
      = .ok (some rec) := by
  simp [check_task_result, check_task_result_try, wrap500]

/-! ## Claim theorems -/

/-- C1: evaluation at the spec's own scenario — the generation submission
returns code 1 with localized message 額度不足.  On the raw `/create`
path the `HTTPException(400, 額度不足)` raised at src/app.py:309 is caught
by the route's blanket `except Exception` (src/app.py:330-332) and
re-raised as a 500 whose detail is `str(e)`, so the caller gets a
500-class error with a mangled message; only the template `/generate`
path, whose handler re-raises `HTTPException`s (src/app.py:446-447),
surfaces the 400 with the provider's message verbatim.  This refutes the
claim for the raw path (the code's own line 309 shows the 400 intent). -/
theorem claim1_raw_rejection_wrapped_to_500 :
    (create_process stubsRejected "cat.jpg" "20250101_000000"
        "1920079111241039873" "1920079111245234177" "17466175263110005" 2).1
      = .error (.http 500 "400: 額度不足")
    ∧ (generate_with_template tbl1 stubsRejected "cat.jpg" "20250101_000000" 1).1
      = .error (.http 400 "額度不足") :=
  ⟨rfl, rfl⟩

/-- C2: evaluation at the failing input — a zero-code status envelope
whose record is in the FAILED state (code 20) yet lists an image URL.
`get_process_status` returns that list verbatim: the non-completed branch
(src/app.py:570) also passes `task_result.get("images", [])` through, so
`images` is non-empty although the normalized state is FAILED — refuting
the claim (and the route's own docstring, src/app.py:525). -/
theorem claim2_failed_state_keeps_images :
    get_process_status
        (.ok { code := some 0, msg_cn := none, data := some recFailedWithImages })
      = .ok { status := "success", id := some "T1", state_text := "FAILED",
              state := some 20, startDate := some "s", finishDate := some "f",
              createDate := some "c", images := ["https://x/img1"] } :=
  rfl

/-- C3: every generation payload the template route ever posts has
`generateNum = 1` (the route accepts no caller-supplied count at all),
an empty description list, an empty style id and an empty size id. -/
theorem claim3_template_submission_fixed_params
    (TEMPLATES : List (Int × Template)) (stubs : CreateStubs)
    (filename timestamp : String) (template_id : Int) (p : GeneratePayload)
    (h : (generate_with_template TEMPLATES stubs filename timestamp
      template_id).2.generate_payload = some p) :
    p.generateNum = 1 ∧ p.description = [] ∧ p.styleId = "" ∧
      p.size = { sizeId := "" } := by
  rcases ht : get_template_config TEMPLATES template_id with _ | template
  · unfold generate_with_template at h
    rw [ht] at h
    simp at h
  · rw [generate_with_template_trace TEMPLATES stubs filename timestamp
      template_id template ht] at h
    obtain ⟨h1, h2, h3, -, -, h6⟩ :=
      create_pipeline_payload stubs filename timestamp template.app_id
        template.version_id template.cnet_form_id 1 p h
    exact ⟨h6, h1, h2, h3⟩

/-- C3 witness: against `tbl1` and all-success stubs the template route
posts a concrete payload, and the theorem applies to it. -/
theorem claim3_witness :
    (generate_with_template tbl1 stubsOK "cat.jpg" "ts" 1).2.generate_payload
      = some payloadOK
    ∧ (payloadOK.generateNum = 1 ∧ payloadOK.description = []
      ∧ payloadOK.styleId = "" ∧ payloadOK.size = { sizeId := "" }) :=
  ⟨rfl, claim3_template_submission_fixed_params tbl1 stubsOK "cat.jpg" "ts" 1
    payloadOK rfl⟩

/-- C4: whenever the local save succeeds and the upload fails (for any
reason — provider rejection or transport failure, both of which
`upload_image` surfaces as an error), each create route aborts with an
error derived from that upload failure: no success body (hence no task
handle) is produced, and no generation payload is ever posted. -/
theorem claim4_upload_failure_aborts (TEMPLATES : List (Int × Template))
    (stubs : CreateStubs) (filename timestamp : String)
    (app_id version_id cnet_form_id : String) (generate_num : Int)
    (template_id : Int) (template : Template) (e : PyExc)
    (hsave : stubs.save = .ok ())
    (hup : upload_image stubs.upload = .error e)
    (ht : get_template_config TEMPLATES template_id = some template) :
    (create_process stubs filename timestamp app_id version_id cnet_form_id
        generate_num).1 = .error (.http 500 (strPyExc e))
    ∧ (create_process stubs filename timestamp app_id version_id cnet_form_id
        generate_num).2.generate_payload = none
    ∧ (generate_with_template TEMPLATES stubs filename timestamp
        template_id).1 = .error e
    ∧ (generate_with_template TEMPLATES stubs filename timestamp
        template_id).2.generate_payload = none := by
  obtain ⟨m, rfl⟩ := upload_image_error_is_http stubs.upload e hup
  have hcp1 := create_pipeline_upload_error stubs filename timestamp app_id
    version_id cnet_form_id generate_num _ hsave hup
  have hcp2 := create_pipeline_upload_error stubs filename timestamp
    template.app_id template.version_id template.cnet_form_id 1 _ hsave hup
  refine ⟨?_, ?_, ?_, ?_⟩
  · unfold create_process
    rw [hcp1]
    rfl
  · unfold create_process
    rw [hcp1]
  · simp only [generate_with_template, ht, hcp2]
    rfl
  · simp only [generate_with_template, ht, hcp2]

/-- C4 witness: a provider-rejected upload aborts both routes before any
generation submission. -/
theorem claim4_witness :
    upload_image stubsUploadRejected.upload = .error (.http 500 "400: 無效檔案")
    ∧ ((create_process stubsUploadRejected "cat.jpg" "ts" "a" "v" "c" 2).1
        = .error (.http 500 (strPyExc (.http 500 "400: 無效檔案")))
      ∧ (create_process stubsUploadRejected "cat.jpg" "ts" "a" "v" "c"
          2).2.generate_payload = none
      ∧ (generate_with_template tbl1 stubsUploadRejected "cat.jpg" "ts" 1).1
        = .error (.http 500 "400: 無效檔案")
      ∧ (generate_with_template tbl1 stubsUploadRejected "cat.jpg" "ts"
          1).2.generate_payload = none) :=
  ⟨rfl, claim4_upload_failure_aborts tbl1 stubsUploadRejected "cat.jpg" "ts"
    "a" "v" "c" 2 1 tmplAnime (.http 500 "400: 無效檔案") rfl rfl rfl⟩

/-- C5: a zero-code status envelope whose record carries a state code
outside the three known values normalizes to the explicit "UNKNOWN"
state text (distinguishable from COMPLETED, FAILED and PROCESSING), keeps
the raw code and passes the timestamps through, and the operation returns
a value rather than raising — the enum lookup is guarded by the
membership test at src/app.py:565. -/
theorem claim5_unknown_state_normalized (rec : TaskRecord)
    (mcn : Option String) (v : Int)
    (hstate : rec.state = some v) (hv : v ∉ TaskState.values) :
    get_process_status (.ok { code := some 0, msg_cn := mcn, data := some rec })
      = .ok { status := "success", id := rec.id, state_text := "UNKNOWN",
              state := some v, startDate := rec.startDate,
              finishDate := rec.finishDate, createDate := rec.createDate,
              images := rec.images.getD [] } := by
  have hne : v ≠ TaskState.COMPLETED := by
    intro h10
    exact hv (by rw [h10]; simp [TaskState.values])
  simp only [get_process_status, get_process_status_try,
    check_task_result_ok mcn rec, hstate]
  rw [if_neg (by simpa using hne)]
  simp [wrap500, state_text_of, hv]

/-- C5 witness: the unrecognized state code 99 is reported as UNKNOWN with
the timestamps passed through. -/
theorem claim5_witness :
    recUnknownState.state = some 99
    ∧ (99 : Int) ∉ TaskState.values
    ∧ get_process_status
        (.ok { code := some 0, msg_cn := none, data := some recUnknownState })
      = .ok { status := "success", id := some "T1", state_text := "UNKNOWN",
              state := some 99, startDate := some "s", finishDate := some "f",
              createDate := some "c", images := [] } :=
  ⟨rfl, by decide,
    claim5_unknown_state_normalized recUnknownState none 99 rfl (by decide)⟩

/-- C6: with unique keys (a dict invariant), `get_template_config` returns
exactly the stored template for every present id and `none` for every
absent id; the function is total (no fault escapes) and, being pure, has
no side effect on the table. -/
theorem claim6_resolve_lookup (TEMPLATES : List (Int × Template))
    (template_id : Int) (hnodup : (TEMPLATES.map Prod.fst).Nodup) :
    (∀ t, (template_id, t) ∈ TEMPLATES →
        get_template_config TEMPLATES template_id = some t)
    ∧ (template_id ∉ TEMPLATES.map Prod.fst →
        get_template_config TEMPLATES template_id = none) :=
  ⟨fun t hm => (get_template_config_eq TEMPLATES template_id).trans
      (dictGet_of_mem TEMPLATES template_id t hnodup hm),
   fun hnm => (get_template_config_eq TEMPLATES template_id).trans
      (dictGet_of_not_mem TEMPLATES template_id hnm)⟩

/-- C6 witness: concrete hit and miss on the one-entry table. -/
theorem claim6_witness :
    get_template_config tbl1 1 = some tmplAnime
    ∧ get_template_config tbl1 5 = none :=
  ⟨(claim6_resolve_lookup tbl1 1 (by decide)).1 tmplAnime (by decide),
   (claim6_resolve_lookup tbl1 5 (by decide)).2 (by decide)⟩

/-- C7: a template-based create whose id is absent from the table fails
with the 400-class `HTTPException` raised before any side effect: the
trace shows no file persisted, no upload call and no generation
submission (the lookup at src/app.py:372-374 precedes the file save and
both remote calls). -/
theorem claim7_missing_template_no_side_effects
    (TEMPLATES : List (Int × Template)) (stubs : CreateStubs)
    (filename timestamp : String) (template_id : Int)
    (h : get_template_config TEMPLATES template_id = none) :
    (generate_with_template TEMPLATES stubs filename timestamp template_id).1
      = .error (.http 400 ("模板 ID " ++ toString template_id ++ " 不存在"))
    ∧ (generate_with_template TEMPLATES stubs filename timestamp template_id).2
      = { file_saved := false, upload_called := false,
          generate_payload := none } := by
  unfold generate_with_template
  rw [h]
  exact ⟨rfl, rfl⟩

/-- C7 witness: template id 5 against the one-entry table. -/
theorem claim7_witness :
    (generate_with_template tbl1 stubsOK "cat.jpg" "ts" 5).1
      = .error (.http 400 "模板 ID 5 不存在")
    ∧ (generate_with_template tbl1 stubsOK "cat.jpg" "ts" 5).2
      = { file_saved := false, upload_called := false,
          generate_payload := none } :=
  claim7_missing_template_no_side_effects tbl1 stubsOK "cat.jpg" "ts" 5 rfl

/-- C8: round trip — when `/create` succeeds with some handle and the
status stub for exactly that handle's task id reports a zero-code
envelope whose record is completed (state 10) with two image URLs,
`/status` returns state COMPLETED with those two URLs in that order. -/
theorem claim8_round_trip (stubs : CreateStubs)
    (filename timestamp app_id version_id cnet_form_id : String)
    (generate_num : Int) (res : CreateResult)
    (provider : String → Except String TaskResponse)
    (mcn : Option String) (rec : TaskRecord) (u1 u2 : String)
    (hcreate : (create_process stubs filename timestamp app_id version_id
        cnet_form_id generate_num).1 = .ok res)
    (hprov : provider res.task_id
        = .ok { code := some 0, msg_cn := mcn, data := some rec })
    (hstate : rec.state = some TaskState.COMPLETED)
    (himages : rec.images = some [u1, u2]) :
    get_process_status (provider res.task_id)
      = .ok { status := "success", id := rec.id, state_text := "COMPLETED",
              state := some TaskState.COMPLETED, startDate := rec.startDate,
              finishDate := rec.finishDate, createDate := rec.createDate,
              images := [u1, u2] } := by
  rw [hprov]
  simp only [get_process_status, get_process_status_try,
    check_task_result_ok mcn rec, hstate, himages]
  simp [wrap500, state_text_of, TaskState.values, TaskState.nameOf,
    TaskState.COMPLETED]

/-- C8 witness: the handle `T1` produced by `/create` under `stubsOK`,
queried against a stub that reports it completed with two URLs. -/
theorem claim8_witness :
    (create_process stubsOK "cat.jpg" "ts" "a" "v" "c" 2).1 = .ok resOK
    ∧ get_process_status (providerCompleted resOK.task_id)
      = .ok { status := "success", id := some "T1",
              state_text := "COMPLETED", state := some 10,
              startDate := some "s", finishDate := some "f",
              createDate := some "c",
              images := ["https://x/a.png", "https://x/b.png"] } :=
  ⟨rfl, claim8_round_trip stubsOK "cat.jpg" "ts" "a" "v" "c" 2 resOK
    providerCompleted none recCompletedTwo "https://x/a.png"
    "https://x/b.png" rfl rfl rfl rfl⟩

/-- C9: for every api key and task id, the status route issues the
outbound fetch as the China-region request — `is_china` is hardcoded to
`true` at src/app.py:537, so the `section: cn` region-selector header is
always attached, and the route exposes no parameter to change it. -/
theorem claim9_region_header_fixed (apiKey task_id : String) :
    get_process_status_request apiKey task_id
      = check_task_request apiKey task_id true
    ∧ ("section", "cn") ∈ (get_process_status_request apiKey task_id).headers := by
  refine ⟨rfl, ?_⟩
  simp [get_process_status_request, check_task_request, check_task_headers]

/-- C10: for every loaded table (including the empty one) `/templates`
returns `count` equal to the length of the returned list, the returned
template ids in ascending order, and a list that is a permutation of the
loaded templates rendered as response items. -/
theorem claim10_templates_sorted_and_counted
    (TEMPLATES : List (Int × Template)) :
    (get_templates TEMPLATES).count
        = (get_templates TEMPLATES).templates.length
    ∧ List.Sorted (· ≤ ·)
        ((get_templates TEMPLATES).templates.map (fun item => item.template_id))
    ∧ ((get_templates TEMPLATES).templates).Perm
        (TEMPLATES.map template_list_item) := by
  refine ⟨rfl, ?_, ?_⟩
  · have hs := List.sorted_insertionSort
      (fun a b : Int × Template => a.1 ≤ b.1) TEMPLATES
    have hmap : (get_templates TEMPLATES).templates.map
          (fun item => item.template_id)
        = (sorted_items TEMPLATES).map (fun tc => tc.1) := by
      simp only [get_templates, List.map_map]
      rfl
    rw [hmap]
    exact List.pairwise_map.mpr hs
  · exact (List.perm_insertionSort
      (fun a b : Int × Template => a.1 ≤ b.1) TEMPLATES).map template_list_item

end A1
